import Mathlib

/-!
Shallow embedding of `src/backend/server.py` (QuantumSpace Research Platform
API): a CRUD façade over a single document collection (`db.research`) plus a
stateless chat relay to a hosted LLM.

Modelling conventions:
* The collection is a list of stored documents in database-native order
  (`find()` iterates in that order; `insert_one` / `insert_many` append).
* Stored documents may lack fields (MongoDB is schemaless); each field is an
  `Option String`, and a Python `KeyError` on `item["f"]` is an `Except.error`
  carrying `str(KeyError)`, i.e. the quoted field name.
* Nondeterministic runtime inputs — `uuid.uuid4()`, `datetime.now().isoformat()`,
  the environment-supplied API key, the LLM client's outcome, and database
  faults — are passed as explicit parameters/oracles.
* Route handlers become state-passing functions; an uncaught `HTTPException`
  becomes `Except.error` of an `HTTPError` (status code plus detail string).
-/

/-- An HTTP error raised by a route handler (`HTTPException`). -/
structure HTTPError where
  status_code : Nat
  detail : String
deriving DecidableEq, Repr

/-- A document stored in the `research` collection. MongoDB enforces no
schema, so every field the handlers read is optional. -/
structure StoredDoc where
  id : Option String
  title : Option String
  category : Option String
  description : Option String
  findings : Option String
  created_at : Option String
deriving DecidableEq, Repr

/-- The `research` collection in database-native order. -/
abbrev DB := List StoredDoc

/-- Request body of `POST /api/research` (`ResearchItem` pydantic model). -/
structure ResearchItem where
  title : String
  category : String
  description : String
  findings : String
deriving DecidableEq, Repr

/-- Response model of the research routes (`ResearchResponse`). -/
structure ResearchResponse where
  id : String
  title : String
  category : String
  description : String
  findings : String
  created_at : String
deriving DecidableEq, Repr

/-- Python dictionary access `item[name]` on an optional field: a missing key
raises `KeyError`, whose `str` is the quoted key name. -/
def getKey (v : Option String) (name : String) : Except String String :=
  match v with
  | some s => Except.ok s
  | none => Except.error ("'" ++ name ++ "'")

/-- The body of the `async for` loop of `get_research_data`: build one
`ResearchResponse` from a stored document, reading the six fields in source
order; the first missing field raises `KeyError`. -/
def mkResponse (item : StoredDoc) : Except String ResearchResponse := do
  let id ← getKey item.id "id"
  let title ← getKey item.title "title"
  let category ← getKey item.category "category"
  let description ← getKey item.description "description"
  let findings ← getKey item.findings "findings"
  let created_at ← getKey item.created_at "created_at"
  pure { id := id, title := title, category := category,
         description := description, findings := findings,
         created_at := created_at }

/-- The `async for item in db.research.find()` loop: convert each document
in collection order, aborting at the first document that raises. -/
def collectResponses : DB → Except String (List ResearchResponse)
  | [] => Except.ok []
  | item :: rest => do
      let r ← mkResponse item
      let rs ← collectResponses rest
      pure (r :: rs)

/-- `GET /api/research` (`get_research_data`): iterate the whole collection,
converting every document; any exception is caught and re-raised as a 500. -/
def get_research_data (db : DB) : Except HTTPError (List ResearchResponse) :=
  match collectResponses db with
  | Except.ok research_items => Except.ok research_items
  | Except.error e =>
      Except.error ⟨500, "Error fetching research data: " ++ e⟩

/-- `POST /api/research` (`add_research_data`): `research_id` and
`created_at` stand for the freshly drawn `str(uuid.uuid4())` and
`datetime.now().isoformat()`. The insert is modelled fault-free (a confirmed
`insert_one`), so the handler returns the new collection state and the echoed
response. -/
def add_research_data (db : DB) (research : ResearchItem)
    (research_id created_at : String) : DB × ResearchResponse :=
  let research_doc : StoredDoc :=
    { id := some research_id, title := some research.title,
      category := some research.category,
      description := some research.description,
      findings := some research.findings,
      created_at := some created_at }
  (db ++ [research_doc],
   { id := research_id, title := research.title,
     category := research.category, description := research.description,
     findings := research.findings, created_at := created_at })

/-- Whether a stored document matches the filter `{"id": research_id}`:
documents without the field do not match. -/
def matchesId (research_id : String) (d : StoredDoc) : Bool :=
  d.id = some research_id

/-- `delete_one({"id": research_id})`: remove the first matching document if
any; `none` means `deleted_count == 0`. -/
def delete_one (research_id : String) : DB → Option DB
  | [] => none
  | d :: rest =>
      if matchesId research_id d then some rest
      else (delete_one research_id rest).map (fun r => d :: r)

/-- Success body of `DELETE /api/research/{research_id}`. -/
structure DeleteResponse where
  message : String
  id : String
deriving DecidableEq, Repr

/-- `DELETE /api/research/{research_id}` (`delete_research_data`): 404 when
zero documents matched, otherwise the collection with the match removed and a
confirmation naming the deleted id. -/
def delete_research_data (db : DB) (research_id : String) :
    Except HTTPError (DB × DeleteResponse) :=
  match delete_one research_id db with
  | none => Except.error ⟨404, "Research item not found"⟩
  | some db' =>
      Except.ok (db', { message := "Research item deleted successfully",
                        id := research_id })

/-- One entry of the static category list. -/
structure CategoryInfo where
  id : String
  name : String
  description : String
deriving DecidableEq, Repr

/-- `GET /api/research/categories` (`get_research_categories`): a hard-coded
response; the handler reads no stored data, so the collection state parameter
is unused. -/
def get_research_categories (_db : DB) : List CategoryInfo :=
  [ { id := "space", name := "Space Research",
      description := "Space exploration and satellite technology" },
    { id := "quantum", name := "Quantum Theory",
      description := "Quantum computing and quantum mechanics" },
    { id := "ai", name := "AI Programming",
      description := "Artificial intelligence and machine learning" },
    { id := "database", name := "Database Technology",
      description := "Data management and analytics" } ]

/-- `count_documents({"category": c})`: documents whose `category` field
equals `c`. -/
def countCategory (db : DB) (c : String) : Nat :=
  db.countP (fun d => d.category = some c)

/-- The `categories` object of the stats response. -/
structure StatsCategories where
  space : Nat
  quantum : Nat
  ai : Nat
  database : Nat
deriving DecidableEq, Repr

/-- Response of `GET /api/research/stats`. -/
structure StatsResult where
  total_research : Nat
  categories : StatsCategories
  last_updated : String
deriving DecidableEq, Repr

/-- `GET /api/research/stats` (`get_research_stats`): `count_documents({})`
plus four independent per-category counts; `now` stands for
`datetime.now().isoformat()`. -/
def get_research_stats (db : DB) (now : String) : StatsResult :=
  { total_research := db.length,
    categories :=
      { space := countCategory db "space",
        quantum := countCategory db "quantum",
        ai := countCategory db "ai",
        database := countCategory db "database" },
    last_updated := now }

/-! ## Chat relay (`get_llm_chat`, `chat_with_ai`) -/

/-- The conversation context built by `LlmChat(...)` followed by
`.with_model(provider, model)`. -/
structure LlmChat where
  api_key : String
  session_id : String
  system_message : String
  provider : String
  model : String
deriving DecidableEq, Repr

/-- The user message wrapper `UserMessage(text=...)`. -/
structure UserMessage where
  text : String
deriving DecidableEq, Repr

/-- Response model of `POST /api/chat`. -/
structure ChatResponse where
  response : String
deriving DecidableEq, Repr

/-- The fixed multi-paragraph system prompt hard-coded in `get_llm_chat`. -/
def system_message_text : String :=
  "You are an advanced AI assistant specialized in space research, quantum theory, and AI programming. You have expertise in:\n\n1. Space Research & Technology:\n   - Satellite technology and space missions\n   - Astronomical data analysis\n   - Space exploration programs\n   - Rocket technology and propulsion systems\n   - Space station operations\n\n2. Quantum Theory & Computing:\n   - Quantum mechanics principles\n   - Quantum computing algorithms\n   - Quantum entanglement and superposition\n   - Quantum cryptography\n   - Quantum machine learning\n\n3. AI Programming & Database Systems:\n   - Machine learning models for research\n   - Data analysis and visualization\n   - Database management for research data\n   - Predictive analytics for space missions\n\nProvide clear, educational, and engaging explanations suitable for researchers, investors, and the general public. Use analogies when helpful and always maintain scientific accuracy."

/-- `get_llm_chat()`: builds a fresh `LlmChat` with the constant system
prompt and session id and selects the fixed provider/model; the api key is
the environment-supplied `EMERGENT_LLM_KEY`. -/
def get_llm_chat (emergent_llm_key : String) : LlmChat :=
  { api_key := emergent_llm_key,
    session_id := "quantumspace-chat",
    system_message := system_message_text,
    provider := "openai",
    model := "gpt-4o-mini" }

/-- `POST /api/chat` (`chat_with_ai`): build a fresh chat context, wrap the
user's text, and make a single call to the LLM client. The external client is
the oracle `send : LlmChat → UserMessage → Except String String`
(`Except.error e` models `send_message` raising an exception whose `str` is
`e`). Any exception is caught and translated to a 500 whose detail wraps the
exception text; a successful reply is returned unchanged. -/
def chat_with_ai (emergent_llm_key : String)
    (send : LlmChat → UserMessage → Except String String)
    (chat_message : String) : Except HTTPError ChatResponse :=
  let chat := get_llm_chat emergent_llm_key
  let user_message : UserMessage := { text := chat_message }
  match send chat user_message with
  | Except.ok response => Except.ok { response := response }
  | Except.error e =>
      Except.error ⟨500, "Error processing chat message: " ++ e⟩

/-- A sequence of independent `POST /api/chat` requests handled by the same
process: each request re-runs `chat_with_ai` from scratch, with no state
carried from one call to the next (the source keeps no conversation store;
`get_llm_chat` is re-invoked per request). -/
def runChats (emergent_llm_key : String)
    (send : LlmChat → UserMessage → Except String String)
    (messages : List String) : List (Except HTTPError ChatResponse) :=
  messages.map (chat_with_ai emergent_llm_key send)

/-! ## Startup seeding (`startup_event`) -/

/-- `count_documents({})` with a fault oracle: `fault = true` models the
database call raising an exception. -/
def count_documents_all (fault : Bool) (db : DB) : Except String Nat :=
  if fault then Except.error "database fault" else Except.ok db.length

/-- `insert_many(docs)` with a fault oracle; on success the documents are
appended in order. -/
def insert_many (fault : Bool) (db : DB) (docs : List StoredDoc) :
    Except String DB :=
  if fault then Except.error "database fault" else Except.ok (db ++ docs)

/-- The four predefined sample records built inside `startup_event`, as a
function of the runtime-drawn uuids and timestamps. -/
def sample_data (id1 id2 id3 id4 t1 t2 t3 t4 : String) : List StoredDoc :=
  [ { id := some id1,
      title := some "Mars Rover Autonomous Navigation System",
      category := some "space",
      description := some "Development of advanced AI-driven navigation systems for Mars exploration rovers, enabling autonomous decision-making in challenging terrain.",
      findings := some "Successfully implemented machine learning algorithms that improved navigation accuracy by 85% and reduced mission planning time by 60%.",
      created_at := some t1 },
    { id := some id2,
      title := some "Quantum Entanglement Communication Protocol",
      category := some "quantum",
      description := some "Research into quantum entanglement-based communication systems for secure space-to-Earth data transmission.",
      findings := some "Achieved quantum entanglement stability over 1000km distance with 99.9% fidelity, opening possibilities for unhackable space communications.",
      created_at := some t2 },
    { id := some id3,
      title := some "AI-Powered Astronomical Data Analysis",
      category := some "ai",
      description := some "Machine learning models for automated detection and classification of celestial objects from telescope data.",
      findings := some "Developed neural networks that can identify exoplanets with 95% accuracy, processing 1000x faster than traditional methods.",
      created_at := some t3 },
    { id := some id4,
      title := some "Distributed Space Mission Database Architecture",
      category := some "database",
      description := some "Scalable database systems for managing vast amounts of space mission data across multiple research institutions.",
      findings := some "Implemented blockchain-based data integrity system handling 10TB+ daily space mission data with real-time global synchronization.",
      created_at := some t4 } ]

/-- The `try` block of `startup_event`: count the existing records; only if
the count is zero, insert the four sample records. An `Except.error` is an
exception escaping the block. -/
def startup_try (count_fault insert_fault : Bool) (db : DB)
    (samples : List StoredDoc) : Except String DB := do
  let existing_count ← count_documents_all count_fault db
  if existing_count = 0 then
    insert_many insert_fault db samples
  else
    pure db

/-- `startup_event`: the `try` block wrapped in the catch-all handler, which
logs and swallows every exception, leaving the collection as it was. The
result type records that the handler itself never raises. -/
def startup_event (count_fault insert_fault : Bool) (db : DB)
    (samples : List StoredDoc) : Except String DB :=
  match startup_try count_fault insert_fault db samples with
  | Except.ok db' => Except.ok db'
  | Except.error _e => Except.ok db

/-- A concrete stored document used to evaluate theorems on closed inputs. -/
def wDoc (i : Option String) (cat : String) : StoredDoc :=
  { id := i, title := some "T", category := some cat,
    description := some "D", findings := some "F", created_at := some "now" }

/-! ## Helper lemmas -/

/-- A stored document has all six fields the response model needs. -/
def docComplete (d : StoredDoc) : Bool :=
  d.id.isSome && d.title.isSome && d.category.isSome &&
    d.description.isSome && d.findings.isSome && d.created_at.isSome

theorem mkResponse_of_complete (d : StoredDoc) (h : docComplete d = true) :
    mkResponse d = Except.ok
      { id := d.id.getD "", title := d.title.getD "",
        category := d.category.getD "", description := d.description.getD "",
        findings := d.findings.getD "", created_at := d.created_at.getD "" } := by
  obtain ⟨i, t, c, de, f, ca⟩ := d
  cases i <;> cases t <;> cases c <;> cases de <;> cases f <;> cases ca <;>
    simp_all [docComplete, mkResponse, getKey] <;> rfl

theorem mkResponse_of_incomplete (d : StoredDoc) (h : docComplete d = false) :
    ∃ e, mkResponse d = Except.error e := by
  obtain ⟨i, t, c, de, f, ca⟩ := d
  cases i <;> cases t <;> cases c <;> cases de <;> cases f <;> cases ca <;>
    simp_all [docComplete, mkResponse, getKey] <;> exact ⟨_, rfl⟩

theorem ok_bind {ε α β : Type} (a : α) (f : α → Except ε β) :
    (Except.ok a : Except ε α) >>= f = f a := rfl

theorem error_bind {ε α β : Type} (e : ε) (f : α → Except ε β) :
    (Except.error e : Except ε α) >>= f = Except.error e := rfl

theorem collectResponses_cons_inv (x : StoredDoc) (xs : DB)
    (items : List ResearchResponse)
    (h : collectResponses (x :: xs) = Except.ok items) :
    ∃ rx rest, mkResponse x = Except.ok rx ∧
      collectResponses xs = Except.ok rest ∧ items = rx :: rest := by
  cases hx : mkResponse x with
  | error e => simp [collectResponses, hx, error_bind] at h
  | ok rx =>
      cases hxs : collectResponses xs with
      | error e => simp [collectResponses, hx, hxs, ok_bind, error_bind] at h
      | ok rest =>
          refine ⟨rx, rest, rfl, rfl, ?_⟩
          simp [collectResponses, hx, hxs, ok_bind] at h
          exact h.symm

theorem collectResponses_cons_ok (x : StoredDoc) (xs : DB)
    (rx : ResearchResponse) (rest : List ResearchResponse)
    (hx : mkResponse x = Except.ok rx)
    (hxs : collectResponses xs = Except.ok rest) :
    collectResponses (x :: xs) = Except.ok (rx :: rest) := by
  simp [collectResponses, hx, hxs, ok_bind]

theorem collectResponses_length (db : DB) (items : List ResearchResponse)
    (h : collectResponses db = Except.ok items) : items.length = db.length := by
  induction db generalizing items with
  | nil =>
      simp [collectResponses] at h
      subst h
      rfl
  | cons x xs ih =>
      obtain ⟨rx, rest, hx, hxs, hitems⟩ := collectResponses_cons_inv x xs items h
      subst hitems
      simp [ih rest hxs]

theorem collectResponses_ok_of_complete (db : DB)
    (h : ∀ d ∈ db, docComplete d = true) :
    ∃ items, collectResponses db = Except.ok items ∧
      items.length = db.length ∧
      (∀ r ∈ items, ∃ d ∈ db, d.id = some r.id) := by
  induction db with
  | nil => exact ⟨[], rfl, rfl, by simp⟩
  | cons x xs ih =>
      obtain ⟨items, hi, hlen, hids⟩ :=
        ih (fun d hd => h d (List.mem_cons_of_mem _ hd))
      have hc : docComplete x = true := h x (List.mem_cons_self _ _)
      have hm := mkResponse_of_complete x hc
      refine ⟨_ :: items, collectResponses_cons_ok x xs _ items hm hi, by
        simpa using hlen, ?_⟩
      intro r hr
      rcases List.mem_cons.mp hr with hr | hr
      · subst hr
        have hid : x.id.isSome = true := by
          simp [docComplete] at hc
          exact hc.1.1.1.1.1
        obtain ⟨v, hv⟩ := Option.isSome_iff_exists.mp hid
        exact ⟨x, List.mem_cons_self _ _, by simp [hv]⟩
      · obtain ⟨d, hd, hdid⟩ := hids r hr
        exact ⟨d, List.mem_cons_of_mem _ hd, hdid⟩

theorem collectResponses_error_of_incomplete (db : DB)
    (h : ∃ d ∈ db, docComplete d = false) :
    ∃ e, collectResponses db = Except.error e := by
  induction db with
  | nil => simp at h
  | cons x xs ih =>
      by_cases hx : docComplete x = true
      · obtain ⟨d, hd, hdf⟩ := h
        rcases List.mem_cons.mp hd with hd | hd
        · subst hd; simp [hx] at hdf
        · obtain ⟨e, he⟩ := ih ⟨d, hd, hdf⟩
          have hm := mkResponse_of_complete x hx
          exact ⟨e, by simp [collectResponses, hm, he, ok_bind, error_bind]⟩
      · obtain ⟨e, he⟩ :=
          mkResponse_of_incomplete x (Bool.not_eq_true _ ▸ hx)
        exact ⟨e, by simp [collectResponses, he, error_bind]⟩

theorem delete_one_eq_none_iff (i : String) (db : DB) :
    delete_one i db = none ↔ ∀ d ∈ db, matchesId i d = false := by
  induction db with
  | nil => simp [delete_one]
  | cons x xs ih =>
      by_cases hx : matchesId i x
      · simp [delete_one, hx]
      · simp [delete_one, hx, Option.map_eq_none', ih]

theorem delete_one_eq_some (i : String) (db db' : DB)
    (h : delete_one i db = some db') :
    ∃ pre m post, db = pre ++ m :: post ∧ db' = pre ++ post ∧
      matchesId i m = true ∧ ∀ d ∈ pre, matchesId i d = false := by
  induction db generalizing db' with
  | nil => simp [delete_one] at h
  | cons x xs ih =>
      by_cases hx : matchesId i x
      · simp [delete_one, hx] at h
        exact ⟨[], x, xs, rfl, by simp [h], hx, by simp⟩
      · simp [delete_one, hx, Option.map_eq_some'] at h
        obtain ⟨r, hr, hdb'⟩ := h
        obtain ⟨pre, m, post, h1, h2, h3, h4⟩ := ih r hr
        refine ⟨x :: pre, m, post, by simp [h1], by simp [← hdb', h2], h3, ?_⟩
        intro d hd
        rcases List.mem_cons.mp hd with hd | hd
        · subst hd; simpa using hx
        · exact h4 d hd

theorem delete_one_append_match (i : String) (db : DB) (d : StoredDoc)
    (hdb : ∀ x ∈ db, matchesId i x = false) (hd : matchesId i d = true) :
    delete_one i (db ++ [d]) = some db := by
  induction db with
  | nil => simp [delete_one, hd]
  | cons x xs ih =>
      have hx := hdb x (List.mem_cons_self _ _)
      simp [delete_one, hx,
        ih (fun y hy => hdb y (List.mem_cons_of_mem _ hy))]

/-! ## Claim theorems -/

/-- C7: Categories() always returns exactly the same static, hard-coded list
of four category descriptors (id, display name, description) — space,
quantum, ai, database — regardless of what records are stored; its result is
not derived from stored data. -/
theorem C7_categories_are_static (db : DB) :
    get_research_categories db =
      [ { id := "space", name := "Space Research",
          description := "Space exploration and satellite technology" },
        { id := "quantum", name := "Quantum Theory",
          description := "Quantum computing and quantum mechanics" },
        { id := "ai", name := "AI Programming",
          description := "Artificial intelligence and machine learning" },
        { id := "database", name := "Database Technology",
          description := "Data management and analytics" } ] := rfl

/-- C5: for every message, if the LLM client raises any exception,
Ask(message) fails with HTTP 500 whose detail wraps the exception's string
representation; there is a single client call (no retry), and on success the
model's textual reply is returned unchanged in the `response` field. -/
theorem C5_chat_error_translation (key : String)
    (send : LlmChat → UserMessage → Except String String) (m : String) :
    (∀ e, send (get_llm_chat key) { text := m } = Except.error e →
      chat_with_ai key send m =
        Except.error ⟨500, "Error processing chat message: " ++ e⟩) ∧
    (∀ r, send (get_llm_chat key) { text := m } = Except.ok r →
      chat_with_ai key send m = Except.ok { response := r }) := by
  constructor <;> intro x hx <;> simp [chat_with_ai, hx]

/-- C5 witness: a concrete failing client yields the wrapped 500, and a
concrete succeeding client yields the unchanged reply. -/
theorem C5_chat_error_translation_witness :
    chat_with_ai "k" (fun _ _ => Except.error "timeout") "hello" =
      Except.error ⟨500, "Error processing chat message: " ++ "timeout"⟩ ∧
    chat_with_ai "k" (fun _ _ => Except.ok "hi there") "hello" =
      Except.ok { response := "hi there" } :=
  ⟨(C5_chat_error_translation "k" (fun _ _ => Except.error "timeout")
      "hello").1 "timeout" rfl,
   (C5_chat_error_translation "k" (fun _ _ => Except.ok "hi there")
      "hello").2 "hi there" rfl⟩

/-- C6: every Ask(message) call builds a fresh conversation context with the
same constant system prompt, session identifier and model selection, and no
history is retained across calls: in any sequence of Ask calls, the reply to
the last message is a function of that message and the external LLM alone,
identical under arbitrary different prior histories. -/
theorem C6_fresh_context_no_history (key : String)
    (send : LlmChat → UserMessage → Except String String)
    (hist1 hist2 : List String) (m : String) :
    (get_llm_chat key).session_id = "quantumspace-chat" ∧
    (get_llm_chat key).system_message = system_message_text ∧
    (get_llm_chat key).provider = "openai" ∧
    (get_llm_chat key).model = "gpt-4o-mini" ∧
    (runChats key send (hist1 ++ [m])).getLast? =
      some (chat_with_ai key send m) ∧
    (runChats key send (hist1 ++ [m])).getLast? =
      (runChats key send (hist2 ++ [m])).getLast? := by
  refine ⟨rfl, rfl, rfl, rfl, ?_, ?_⟩ <;>
    simp [runChats, List.map_append, List.getLast?_concat]

/-- C4: in any store state, Stats() returns the total record count, the
per-category counts for exactly the four known categories, and the current
timestamp; whenever List() succeeds, Stats().total equals its length. -/
theorem C4_stats_totals (db : DB) (now : String) :
    (get_research_stats db now).total_research = db.length ∧
    (get_research_stats db now).categories =
      { space := countCategory db "space",
        quantum := countCategory db "quantum",
        ai := countCategory db "ai",
        database := countCategory db "database" } ∧
    (get_research_stats db now).last_updated = now ∧
    (∀ items, get_research_data db = Except.ok items →
      (get_research_stats db now).total_research = items.length) := by
  refine ⟨rfl, rfl, rfl, ?_⟩
  intro items h
  cases hc : collectResponses db with
  | error e => simp [get_research_data, hc] at h
  | ok its =>
      simp [get_research_data, hc] at h
      subst h
      exact (collectResponses_length db its hc).symm

/-- C4 witness: on the empty store, Stats().total equals the length of the
(successful, empty) List() result. -/
theorem C4_stats_totals_witness :
    (get_research_stats [] "t").total_research =
      ([] : List ResearchResponse).length :=
  (C4_stats_totals [] "t").2.2.2 [] rfl

/-- C8: startup seeding never aborts process startup — every exception
raised by the seeding check or insert is caught inside the handler (first
conjunct: the handler always returns `ok`, with the store seeded only in the
fault-free empty case), and under any fault or a non-empty collection the
store is left unchanged (second conjunct). -/
theorem C8_startup_swallows_exceptions (cf insf : Bool) (db : DB)
    (samples : List StoredDoc) :
    startup_event cf insf db samples =
      Except.ok
        (if cf = false ∧ insf = false ∧ db = [] then db ++ samples else db) ∧
    ((cf = true ∨ insf = true ∨ db ≠ []) →
      startup_event cf insf db samples = Except.ok db) := by
  have hmain : startup_event cf insf db samples =
      Except.ok
        (if cf = false ∧ insf = false ∧ db = [] then db ++ samples else db) := by
    cases cf <;> cases insf <;> cases db <;>
      simp [startup_event, startup_try, count_documents_all, insert_many,
        ok_bind, error_bind, pure, Except.pure]
  refine ⟨hmain, fun h => ?_⟩
  rw [hmain]
  rcases h with h | h | h
  · subst h; simp
  · subst h; simp
  · simp [h]

/-- C8 witness: with a fault in the count query, startup completes and the
(empty) store is unchanged. -/
theorem C8_startup_swallows_exceptions_witness :
    startup_event true false [] [] = Except.ok [] :=
  (C8_startup_swallows_exceptions true false [] []).2 (Or.inl rfl)

/-- C9: List() succeeds iff every stored document has all six response
fields; if any stored document lacks one, the whole call fails with a 500
instead of returning the well-formed subset. -/
theorem C9_list_all_or_nothing (db : DB) :
    ((∃ items, get_research_data db = Except.ok items) ↔
      ∀ d ∈ db, docComplete d = true) ∧
    ((∃ d ∈ db, docComplete d = false) →
      ∃ err, get_research_data db = Except.error err ∧
        err.status_code = 500) := by
  constructor
  · constructor
    · rintro ⟨items, h⟩ d hd
      by_contra hdf
      obtain ⟨e, he⟩ := collectResponses_error_of_incomplete db
        ⟨d, hd, by simpa using hdf⟩
      simp [get_research_data, he] at h
    · intro h
      obtain ⟨items, hi, _, _⟩ := collectResponses_ok_of_complete db h
      exact ⟨items, by simp [get_research_data, hi]⟩
  · rintro ⟨d, hd, hdf⟩
    obtain ⟨e, he⟩ := collectResponses_error_of_incomplete db ⟨d, hd, hdf⟩
    exact ⟨⟨500, "Error fetching research data: " ++ e⟩,
      by simp [get_research_data, he], rfl⟩

/-- C9 witness: a store holding one document without an `id` field makes
List() fail with a 500. -/
theorem C9_list_all_or_nothing_witness :
    ∃ err, get_research_data [wDoc none "ai"] = Except.error err ∧
      err.status_code = 500 :=
  (C9_list_all_or_nothing [wDoc none "ai"]).2
    ⟨wDoc none "ai", List.mem_singleton.mpr rfl, rfl⟩

theorem mkResponse_id (x : StoredDoc) (rx : ResearchResponse)
    (h : mkResponse x = Except.ok rx) : x.id = some rx.id := by
  obtain ⟨i, t, c, de, f, ca⟩ := x
  cases i <;> cases t <;> cases c <;> cases de <;> cases f <;> cases ca <;>
    simp_all [mkResponse, getKey, ok_bind, error_bind, pure, Except.pure] <;>
    exact congrArg ResearchResponse.id h

theorem collectResponses_ids2 (db : DB) (items : List ResearchResponse)
    (h : collectResponses db = Except.ok items) :
    ∀ r ∈ items, ∃ d ∈ db, d.id = some r.id := by
  induction db generalizing items with
  | nil =>
      simp [collectResponses] at h
      subst h
      simp
  | cons x xs ih =>
      obtain ⟨rx, rest, hx, hxs, hit⟩ := collectResponses_cons_inv x xs items h
      subst hit
      intro r hr
      rcases List.mem_cons.mp hr with hr | hr
      · subst hr
        exact ⟨x, List.mem_cons_self _ _, mkResponse_id x r hx⟩
      · obtain ⟨d, hd, hdi⟩ := ih rest hxs r hr
        exact ⟨d, List.mem_cons_of_mem _ hd, hdi⟩

theorem collectResponses_append_one (db : DB) (d : StoredDoc)
    (items : List ResearchResponse) (r : ResearchResponse)
    (hdb : collectResponses db = Except.ok items)
    (hd : mkResponse d = Except.ok r) :
    collectResponses (db ++ [d]) = Except.ok (items ++ [r]) := by
  induction db generalizing items with
  | nil =>
      simp [collectResponses] at hdb
      subst hdb
      simpa using collectResponses_cons_ok d [] r [] hd rfl
  | cons x xs ih =>
      obtain ⟨rx, rest, hx, hxs, hit⟩ := collectResponses_cons_inv x xs items hdb
      subst hit
      simpa using collectResponses_cons_ok x (xs ++ [d]) rx (rest ++ [r]) hx
        (ih rest hxs)

/-- C10: a successful Delete(id) removes exactly one record per call, even
when several stored records share the given id (the store does not enforce id
uniqueness), and every record whose id differs from the given id is left
unchanged (in content and relative order). -/
theorem C10_delete_at_most_one (db : DB) (i : String) (db2 : DB)
    (resp : DeleteResponse)
    (h : delete_research_data db i = Except.ok (db2, resp)) :
    db2.length + 1 = db.length ∧
    db2.countP (matchesId i) + 1 = db.countP (matchesId i) ∧
    db2.filter (fun d => !(matchesId i d)) =
      db.filter (fun d => !(matchesId i d)) := by
  have hdel : delete_one i db = some db2 := by
    cases hd : delete_one i db with
    | none => simp [delete_research_data, hd] at h
    | some r =>
        simp [delete_research_data, hd, Prod.ext_iff] at h
        rw [h.1]
  obtain ⟨pre, m, post, h1, h2, h3, h4⟩ := delete_one_eq_some i db db2 hdel
  subst h1
  subst h2
  refine ⟨by simp; omega, ?_, ?_⟩
  · simp [List.countP_append, List.countP_cons, h3]
    omega
  · simp [List.filter_append, List.filter_cons, h3]

/-- C10 witness: with two stored records sharing id "a", Delete("a") removes
only the first and keeps the differently-categorised duplicate and nothing
else changes. -/
theorem C10_delete_at_most_one_witness :
    ([wDoc (some "a") "quantum"] : DB).length + 1 =
      ([wDoc (some "a") "space", wDoc (some "a") "quantum"] : DB).length ∧
    ([wDoc (some "a") "quantum"] : DB).countP (matchesId "a") + 1 =
      ([wDoc (some "a") "space", wDoc (some "a") "quantum"] : DB).countP
        (matchesId "a") ∧
    ([wDoc (some "a") "quantum"] : DB).filter
        (fun d => !(matchesId "a" d)) =
      ([wDoc (some "a") "space", wDoc (some "a") "quantum"] : DB).filter
        (fun d => !(matchesId "a" d)) :=
  C10_delete_at_most_one
    [wDoc (some "a") "space", wDoc (some "a") "quantum"] "a"
    [wDoc (some "a") "quantum"]
    { message := "Research item deleted successfully", id := "a" } (by rfl)

/-- C2: Delete(id) returns 404 exactly when zero records match the id; a
success confirms the deleted id; and for an id fresh for the store, adding a
record under that id and deleting it succeeds once, after which a second
Delete of the same id returns 404. -/
theorem C2_delete_notfound_iff (db : DB) (i : String) :
    (delete_research_data db i =
        Except.error ⟨404, "Research item not found"⟩ ↔
      db.countP (matchesId i) = 0) ∧
    (∀ db2 resp, delete_research_data db i = Except.ok (db2, resp) →
      resp = { message := "Research item deleted successfully", id := i }) ∧
    (∀ research created_at, (∀ d ∈ db, d.id ≠ some i) →
      delete_research_data (add_research_data db research i created_at).1 i =
        Except.ok (db, { message := "Research item deleted successfully",
                         id := i }) ∧
      delete_research_data db i =
        Except.error ⟨404, "Research item not found"⟩) := by
  have hnone : ∀ hfr : ∀ d ∈ db, d.id ≠ some i, delete_one i db = none := by
    intro hfr
    exact (delete_one_eq_none_iff i db).mpr (fun d hd => by
      simp [matchesId]
      exact hfr d hd)
  refine ⟨?_, ?_, ?_⟩
  · cases hd : delete_one i db with
    | none =>
        simp [delete_research_data, hd]
        intro d hdm
        exact (delete_one_eq_none_iff i db).mp hd d hdm
    | some r =>
        simp [delete_research_data, hd]
        obtain ⟨pre, m, post, h1, h2, h3, h4⟩ := delete_one_eq_some i db r hd
        exact ⟨m, by simp [h1], h3⟩
  · intro db2 resp h
    cases hd : delete_one i db with
    | none => simp [delete_research_data, hd] at h
    | some r =>
        simp [delete_research_data, hd, Prod.ext_iff] at h
        exact h.2.symm
  · intro research created_at hfr
    have hmatch : matchesId i
        { id := some i, title := some research.title,
          category := some research.category,
          description := some research.description,
          findings := some research.findings,
          created_at := some created_at } = true := by
      simp [matchesId]
    have hnomatch : ∀ x ∈ db, matchesId i x = false := by
      intro x hx
      simp [matchesId]
      exact hfr x hx
    have hfirst := delete_one_append_match i db _ hnomatch hmatch
    constructor
    · simp [add_research_data, delete_research_data, hfirst]
    · simp [delete_research_data, hnone hfr]

/-- C2 witness: on the empty store, adding a record with id "x" and deleting
"x" succeeds and restores the empty store, and a second Delete("x") is a
404. -/
theorem C2_delete_notfound_iff_witness :
    delete_research_data
        (add_research_data [] ⟨"T", "ai", "D", "F"⟩ "x" "t").1 "x" =
      Except.ok ([], { message := "Research item deleted successfully",
                       id := "x" }) ∧
    delete_research_data [] "x" =
      Except.error ⟨404, "Research item not found"⟩ :=
  (C2_delete_notfound_iff [] "x").2.2 ⟨"T", "ai", "D", "F"⟩ "t" (by simp)

/-- C1: a valid Add persists a record under the supplied fresh id and
handling-time timestamp and echoes it in full: the response's id is the
generated id (non-empty, previously unseen in the store), all four input
fields and the timestamp are echoed, the stored collection gains exactly the
corresponding document, and a subsequent List returns the prior items plus
exactly one record carrying the new id. -/
theorem C1_add_persists_and_echoes (db : DB) (research : ResearchItem)
    (research_id created_at : String)
    (hid : research_id ≠ "")
    (hfresh : ∀ d ∈ db, d.id ≠ some research_id) :
    (add_research_data db research research_id created_at).2.id =
      research_id ∧
    (add_research_data db research research_id created_at).2.id ≠ "" ∧
    (add_research_data db research research_id created_at).2.title =
      research.title ∧
    (add_research_data db research research_id created_at).2.category =
      research.category ∧
    (add_research_data db research research_id created_at).2.description =
      research.description ∧
    (add_research_data db research research_id created_at).2.findings =
      research.findings ∧
    (add_research_data db research research_id created_at).2.created_at =
      created_at ∧
    (add_research_data db research research_id created_at).1 =
      db ++ [{ id := some research_id, title := some research.title,
               category := some research.category,
               description := some research.description,
               findings := some research.findings,
               created_at := some created_at }] ∧
    (∀ items, get_research_data db = Except.ok items →
      get_research_data
          (add_research_data db research research_id created_at).1 =
        Except.ok
          (items ++ [(add_research_data db research research_id
            created_at).2]) ∧
      (items ++ [(add_research_data db research research_id created_at).2]
        ).countP (fun r => r.id == research_id) = 1) := by
  refine ⟨rfl, hid, rfl, rfl, rfl, rfl, rfl, rfl, ?_⟩
  intro items h
  have hcoll : collectResponses db = Except.ok items := by
    cases hc : collectResponses db with
    | error e => simp [get_research_data, hc] at h
    | ok its =>
        simp [get_research_data, hc] at h
        rw [h]
  have hmk : mkResponse
      { id := some research_id, title := some research.title,
        category := some research.category,
        description := some research.description,
        findings := some research.findings,
        created_at := some created_at } =
      Except.ok (add_research_data db research research_id created_at).2 :=
    rfl
  have happ := collectResponses_append_one db _ items _ hcoll hmk
  constructor
  · simp [get_research_data, add_research_data] at happ ⊢
    rw [happ]
  · have h0 : items.countP (fun r => r.id == research_id) = 0 := by
      refine List.countP_eq_zero.mpr ?_
      intro r hr
      obtain ⟨d, hd, hdi⟩ := collectResponses_ids2 db items hcoll r hr
      simp only [beq_iff_eq]
      intro heq
      exact hfresh d hd (by rw [hdi, heq])
    simp [List.countP_append, h0, add_research_data]

/-- C1 witness: adding a record to the empty store with fresh id "abc" and
timestamp "t" echoes all fields, persists the document, and List returns
exactly that one record. -/
theorem C1_add_persists_and_echoes_witness :
    (add_research_data [] ⟨"T", "ai", "D", "F"⟩ "abc" "t").2.id = "abc" ∧
    (add_research_data [] ⟨"T", "ai", "D", "F"⟩ "abc" "t").2.id ≠ "" ∧
    (add_research_data [] ⟨"T", "ai", "D", "F"⟩ "abc" "t").2.title = "T" ∧
    (add_research_data [] ⟨"T", "ai", "D", "F"⟩ "abc" "t").2.category =
      "ai" ∧
    (add_research_data [] ⟨"T", "ai", "D", "F"⟩ "abc" "t").2.description =
      "D" ∧
    (add_research_data [] ⟨"T", "ai", "D", "F"⟩ "abc" "t").2.findings =
      "F" ∧
    (add_research_data [] ⟨"T", "ai", "D", "F"⟩ "abc" "t").2.created_at =
      "t" ∧
    (add_research_data [] ⟨"T", "ai", "D", "F"⟩ "abc" "t").1 =
      [] ++ [{ id := some "abc", title := some "T", category := some "ai",
               description := some "D", findings := some "F",
               created_at := some "t" }] ∧
    (∀ items, get_research_data [] = Except.ok items →
      get_research_data
          (add_research_data [] ⟨"T", "ai", "D", "F"⟩ "abc" "t").1 =
        Except.ok
          (items ++ [(add_research_data [] ⟨"T", "ai", "D", "F"⟩ "abc"
            "t").2]) ∧
      (items ++ [(add_research_data [] ⟨"T", "ai", "D", "F"⟩ "abc" "t").2]
        ).countP (fun r => r.id == "abc") = 1) :=
  C1_add_persists_and_echoes [] ⟨"T", "ai", "D", "F"⟩ "abc" "t"
    (by decide) (by simp)

/-- C3: startup seeding on a fresh empty collection inserts exactly the four
predefined records, one per category {space, quantum, ai, database}; List()
then returns 4 items, Stats().total is 4 and every per-category count is 1;
if any record already exists, seeding inserts nothing. -/
theorem C3_seeding_exactly_four (id1 id2 id3 id4 t1 t2 t3 t4 now : String) :
    startup_event false false [] (sample_data id1 id2 id3 id4 t1 t2 t3 t4) =
      Except.ok (sample_data id1 id2 id3 id4 t1 t2 t3 t4) ∧
    (sample_data id1 id2 id3 id4 t1 t2 t3 t4).length = 4 ∧
    (sample_data id1 id2 id3 id4 t1 t2 t3 t4).map (fun d => d.category) =
      [some "space", some "quantum", some "ai", some "database"] ∧
    (∃ items,
      get_research_data (sample_data id1 id2 id3 id4 t1 t2 t3 t4) =
        Except.ok items ∧ items.length = 4) ∧
    (get_research_stats (sample_data id1 id2 id3 id4 t1 t2 t3 t4)
        now).total_research = 4 ∧
    (get_research_stats (sample_data id1 id2 id3 id4 t1 t2 t3 t4)
        now).categories = { space := 1, quantum := 1, ai := 1,
                            database := 1 } ∧
    (∀ db : DB, db ≠ [] →
      startup_event false false db
        (sample_data id1 id2 id3 id4 t1 t2 t3 t4) = Except.ok db) := by
  have hcomp : ∀ d ∈ sample_data id1 id2 id3 id4 t1 t2 t3 t4,
      docComplete d = true := by
    intro d hd
    simp [sample_data] at hd
    rcases hd with h | h | h | h <;> subst h <;> rfl
  refine ⟨?_, rfl, rfl, ?_, rfl, ?_, ?_⟩
  · simp [startup_event, startup_try, count_documents_all, insert_many,
      ok_bind, sample_data]
  · obtain ⟨items, hi, hlen, _⟩ :=
      collectResponses_ok_of_complete _ hcomp
    exact ⟨items, by simp [get_research_data, hi],
      by rw [hlen]; rfl⟩
  · simp [get_research_stats, countCategory, sample_data,
      List.countP_cons]
  · intro db hdb
    cases db with
    | nil => exact absurd rfl hdb
    | cons x xs =>
        simp [startup_event, startup_try, count_documents_all, ok_bind,
          pure, Except.pure]

/-- C3 witness: with one record already stored, startup seeding inserts
nothing (concrete ids/timestamps). -/
theorem C3_seeding_exactly_four_witness :
    startup_event false false [wDoc (some "z") "ai"]
      (sample_data "i1" "i2" "i3" "i4" "t1" "t2" "t3" "t4") =
      Except.ok [wDoc (some "z") "ai"] :=
  (C3_seeding_exactly_four "i1" "i2" "i3" "i4" "t1" "t2" "t3" "t4"
    "now").2.2.2.2.2.2 [wDoc (some "z") "ai"] (by simp)
